import Mathlib

/-!
Verification development for the NAT UI process lifecycle manager
(`simple_workflow/helpers/ui_manager.py`).  The Python class `UIManager` is
shallowly embedded below: pure string/list manipulation is translated
directly, and the effectful steps of `UIManager.start` are modelled as a
pure function of an oracle (`Env`) that records what the operating system
would answer at each subprocess / socket / filesystem interaction, in the
order the source performs them (Unix code path, `sys.platform != "win32"`).
-/

/-! ## String primitives

Python string operations used by the source, re-implemented structurally
over `List Char` so that every definition evaluates inside the kernel.
-/

/-- Python `str.strip()`: remove leading and trailing whitespace. -/
def stripStr (s : String) : String :=
  ⟨((s.data.dropWhile Char.isWhitespace).reverse.dropWhile Char.isWhitespace).reverse⟩

/-- Python `str.rstrip()`: remove trailing whitespace. -/
def rstripStr (s : String) : String :=
  ⟨(s.data.reverse.dropWhile Char.isWhitespace).reverse⟩

/-- Python `str.lower()` (ASCII case folding, which is all the markers need). -/
def lowerStr (s : String) : String :=
  ⟨s.data.map Char.toLower⟩

/-- Helper for substring search: does `pat` occur in the character list? -/
def substrAux (pat : List Char) : List Char → Bool
  | [] => pat.isEmpty
  | c :: cs => pat.isPrefixOf (c :: cs) || substrAux pat cs

/-- Python `pat in s` for strings: substring containment. -/
def containsSubstr (s pat : String) : Bool :=
  substrAux pat.data s.data

/-- Helper for Python `s.split('=', 1)`: split a character list at the first
`'='`, returning the part before and the part after, or `none` if there is
no `'='`. -/
def splitEqAux : List Char → Option (List Char × List Char)
  | [] => none
  | c :: cs =>
    if c = '=' then some ([], cs)
    else
      match splitEqAux cs with
      | none => none
      | some (k, v) => some (c :: k, v)

/-- Python `key, value = line.split('=', 1)` (the source only evaluates this
on lines that contain `'='`; when there is none we return the whole line as
the key, mirroring the one-element list Python would produce). -/
def splitOnceEq (s : String) : String × String :=
  match splitEqAux s.data with
  | none => (s, "")
  | some (k, v) => (⟨k⟩, ⟨v⟩)

/-- Python `'\n'.join(lines)`. -/
def joinLines : List String → String
  | [] => ""
  | [s] => s
  | s :: rest => s ++ "\n" ++ joinLines rest

/-- Python `lst[-n:]`: the last `n` elements (the whole list when shorter). -/
def lastN (n : Nat) (l : List String) : List String :=
  l.drop (l.length - n)

/-! ## The `.env` configuration step (`UIManager.start`, step 6, lines 269-298)

Python dictionaries preserve insertion order and re-assignment keeps the
original position, so `env_vars` is embedded as an association list with
first-match update/append (`dictSet`) and first-match lookup (`dictGet`);
`parseEnvLines` never creates duplicate keys, so first-match update agrees
with the Python dict.
-/

/-- Dictionary assignment `d[k] = v` on an association list. -/
def dictSet : List (String × String) → String → String → List (String × String)
  | [], k, v => [(k, v)]
  | (k', v') :: d, k, v =>
    if k' == k then (k, v) :: d else (k', v') :: dictSet d k v

/-- Dictionary lookup `d.get(k)` on an association list. -/
def dictGet : List (String × String) → String → Option String
  | [], _ => none
  | (k', v') :: d, k => if k' == k then some v' else dictGet d k

/-- The filter at line 280 of the source: after stripping, a line is kept
iff it is nonempty, is not a comment, and contains an `'='`. -/
def keepLine (line : String) : Bool :=
  let l := stripStr line
  l != "" && !(("#".data).isPrefixOf l.data) && l.data.contains '='

/-- One iteration of the `.env`-reading loop (lines 278-282): strip the
line, skip blank/comment/separator-free lines, otherwise split at the first
`'='` and store the stripped key and value. -/
def parseStep (d : List (String × String)) (line : String) : List (String × String) :=
  if keepLine line then
    let kv := splitOnceEq (stripStr line)
    dictSet d (stripStr kv.1) (stripStr kv.2)
  else d

/-- The whole `.env`-reading loop over the file's lines. -/
def parseEnvLines (lines : List String) : List (String × String) :=
  lines.foldl parseStep []

/-- Source constant `self.ui_port = 3000`. -/
def UIManager.ui_port : Nat := 3000

/-- Source constant `self.nat_port = 8000`. -/
def UIManager.nat_port : Nat := 8000

/-- Source: `nat_backend_url = f"http://localhost:{self.nat_port}"`. -/
def natBackendUrl : String := "http://localhost:" ++ toString UIManager.nat_port

/-- Step 6 of `UIManager.start` (lines 274-292): read the existing `.env`
file when present, force `NAT_BACKEND_URL`, and default `PORT` only when it
is absent.  The returned association list is what the rewritten file
contains, one `key=value` line per entry. -/
def configureEnv (existing : Option (List String)) : List (String × String) :=
  let env_vars :=
    match existing with
    | some lines => parseEnvLines lines
    | none => []
  let env_vars := dictSet env_vars "NAT_BACKEND_URL" natBackendUrl
  if (dictGet env_vars "PORT").isNone then
    dictSet env_vars "PORT" (toString UIManager.ui_port)
  else env_vars

/-! ## The bounded output buffer (`capture_stdout` / `capture_stderr`, lines 342-369)

Both capture threads append under `self.output_lock`, so any execution is
some serialisation of the appends; the buffer evolution is the fold of the
per-line append below over that serialised sequence.
-/

/-- One buffer mutation under the lock: `append` the line, then
`if len(self.process_output) > 100: self.process_output.pop(0)` (dropping
the oldest line). -/
def appendBounded (buf : List String) (line : String) : List String :=
  if (buf ++ [line]).length > 100 then (buf ++ [line]).tail else buf ++ [line]

/-- Which capture thread produced a line. -/
inductive OutSource where
  | stdout
  | stderr
deriving DecidableEq, Repr

/-- The tag each capture thread prepends (lines 352 and 366), applied to the
`rstrip`-ed line. -/
def taggedLine : OutSource × String → String
  | (OutSource.stdout, line) => "[STDOUT] " ++ rstripStr line
  | (OutSource.stderr, line) => "[STDERR] " ++ rstripStr line

/-- One serialised capture event: tag the raw line by its stream, then do
the locked bounded append. -/
def captureAppend (buf : List String) (ev : OutSource × String) : List String :=
  appendBounded buf (taggedLine ev)

/-! ## The install-with-retry engine (`UIManager.start`, step 5, lines 193-267) -/

/-- Result of one `subprocess.run([npm, install_cmd, ...])` invocation:
success, `subprocess.TimeoutExpired` (whose captured streams the source
ignores), or `subprocess.CalledProcessError` with its `stderr`, `stdout`
and `returncode`. -/
inductive InstallOutcome where
  | success
  | timeout (stdout stderr : String)
  | failed (stderr stdout : String) (returncode : Int)
deriving DecidableEq, Repr

/-- The two sticky strategy flags (lines 197-198). -/
structure InstallState where
  useNpmInstall : Bool
  useLegacyPeerDeps : Bool
deriving DecidableEq, Repr

/-- The argument list of one install invocation on Unix (lines 217-219). -/
def installCmdList (npmCmd : String) (st : InstallState) : List String :=
  [npmCmd, if st.useNpmInstall then "install" else "ci"]
    ++ (if st.useLegacyPeerDeps then ["--legacy-peer-deps"] else [])

/-- Lockfile-mismatch classification (lines 238-240): any of the three
markers occurs in `error_output.lower()`. -/
def isLockfileError (errorOutput : String) : Bool :=
  containsSubstr (lowerStr errorOutput) "package-lock.json"
    || containsSubstr (lowerStr errorOutput) "lockfile"
    || containsSubstr (lowerStr errorOutput) "cannot be installed"

/-- Peer-dependency-conflict classification (lines 246-248). -/
def isPeerDepError (errorOutput : String) : Bool :=
  containsSubstr (lowerStr errorOutput) "eresolve"
    || containsSubstr (lowerStr errorOutput) "peer dependency"
    || containsSubstr (lowerStr errorOutput) "conflicting peer dependency"

/-- The comprehensive error message built at lines 253-261 for an
unclassified `CalledProcessError`. -/
def genericErrorMsg (stderr stdout : String) (returncode : Int) : String :=
  "❌ Failed to install dependencies:\n"
    ++ (if stderr != "" then "\nSTDERR:\n" ++ stderr ++ "\n" else "")
    ++ (if stdout != "" then "\nSTDOUT:\n" ++ stdout ++ "\n" else "")
    ++ (if stderr == "" && stdout == "" then
          "\n(Process exited with code " ++ toString returncode ++ ")\n"
            ++ "Try running 'npm install' manually in the NeMo-Agent-Toolkit-UI directory to see the full error.\n"
        else "")

/-- How the `for attempt in range(max_retries)` loop of step 5 ends:
`installed` = the `break` at line 229 ran; `fellThrough` = the loop ran out
of iterations through `continue` without raising (the source then proceeds
to step 6 as if the install had succeeded); `error` = a `RuntimeError` was
raised.  `invocations` counts how many install subprocesses were run and
the final `InstallState` records the sticky flags. -/
inductive InstallResult where
  | installed (invocations : Nat) (st : InstallState)
  | fellThrough (invocations : Nat) (st : InstallState)
  | error (msg : String) (invocations : Nat)
deriving DecidableEq, Repr

/-- Number of install subprocess invocations the loop performed. -/
def InstallResult.invocations : InstallResult → Nat
  | .installed n _ => n
  | .fellThrough n _ => n
  | .error _ n => n

/-- The retry loop of step 5.  `oc inv` is the outcome of the
`inv`-th install subprocess; `remaining` is how many values of `attempt`
the `for` loop still has (`max_retries = 2` at the top call, and every
`continue` — including the two sticky-flag reclassifications — moves to
the next value of `attempt`); `attempt < max_retries - 1` is equivalent to
`remaining > 1`, i.e. `r > 0` in the `r+1` branch. -/
def installLoop (oc : Nat → InstallOutcome) : Nat → Nat → InstallState → InstallResult
  | inv, 0, st => .fellThrough inv st
  | inv, r + 1, st =>
    match oc inv with
    | .success => .installed (inv + 1) st
    | .timeout _ _ =>
      if r > 0 then installLoop oc (inv + 1) r st
      else .error "❌ npm install timed out after retries" (inv + 1)
    | .failed stderr stdout rc =>
      let errorOutput := stderr ++ stdout
      if !st.useNpmInstall && isLockfileError errorOutput then
        installLoop oc (inv + 1) r { st with useNpmInstall := true }
      else if !st.useLegacyPeerDeps && isPeerDepError errorOutput then
        installLoop oc (inv + 1) r { st with useLegacyPeerDeps := true }
      else if r > 0 then installLoop oc (inv + 1) r st
      else .error (genericErrorMsg stderr stdout rc) (inv + 1)

/-! ## Shutdown (`UIManager.stop`, lines 501-513) -/

/-- Observable actions `stop` may perform on the child process. -/
inductive StopAction where
  | terminate
  | wait
  | kill
deriving DecidableEq, Repr

/-- The `stop` method: when a process handle is tracked, terminate, wait up
to 5 s (`graceful` says whether the wait succeeded; on
`subprocess.TimeoutExpired` it force-kills), and in the `finally` block
clear the handle; when no handle is tracked it does nothing.  Returns the
new handle and the actions performed. -/
def UIManager.stop (graceful : Bool) (uiProcess : Option Nat) :
    Option Nat × List StopAction :=
  match uiProcess with
  | none => (none, [])
  | some _ =>
    (none,
      if graceful then [StopAction.terminate, StopAction.wait]
      else [StopAction.terminate, StopAction.wait, StopAction.kill])

/-! ## The `start` method (lines 127-499)

Every interaction of `start` with the outside world is read off an oracle
`Env` in source order.  The embedding follows the Unix code path
(`sys.platform != "win32"`) and the constructor state `ui_process = None`.
-/

/-- Kinds of subprocess the method spawns (ghost trace used to observe
which external commands ran). -/
inductive SpawnKind where
  | versionCheck (cmd : String)
  | killPortCmd
  | gitClone
  | npmInstall
  | uiServer
deriving DecidableEq, Repr

/-- Outcome of the `git clone` subprocess (lines 176-189). -/
inductive CloneOutcome where
  | success
  | timeout
  | failed (errMsg : String)
deriving DecidableEq, Repr

/-- Oracle for one run of `start`: what the operating system answers at
each interaction point, in source order.  `install inv` is the outcome of
the `inv`-th install subprocess; the `alive*` fields are the answers of
`self.ui_process.poll() is None` at the successive poll sites;
`recentOutput` is the content of `self.process_output` when a crash
diagnostic snapshots it. -/
structure Env where
  gitOk : Bool
  nodeOk : Bool
  npmOk : Bool
  natPortFree : Bool
  uiPortFreeAtStart : Bool
  userAgreesKill : Bool
  killAttemptRaises : Bool
  uiPortFreeAfterKill : Bool
  uiPathExists : Bool
  clone : CloneOutcome
  install : Nat → InstallOutcome
  envFile : Option (List String)
  spawnRaises : Bool
  spawnErrText : String
  recentOutput : List String
  aliveAtSettle : Bool
  gatewayReady : Bool
  aliveAfterGatewayWait : Bool
  nextjsReady : Bool
  compiled : Bool
  httpOk : Bool
  httpErrText : String
  aliveAtFinal : Bool
  stopGraceful : Bool

/-- Observable result of `start`: the returned boolean, the failure message
printed by the `except` handlers (`str(e)`), the subprocess trace, whether
`self.stop()` ran, the tracked handle afterwards, and the warnings
emitted. -/
structure StartOutcome where
  ok : Bool
  failMsg : Option String
  spawns : List SpawnKind
  stopCalled : Bool
  uiProcess : Option Nat
  warnings : List String
deriving Repr

/-- The `except` handlers at lines 492-499: print the message, call
`self.stop()`, return `False`. -/
def failOutcome (graceful : Bool) (msg : String) (spawns : List SpawnKind)
    (proc : Option Nat) (w : List String) : StartOutcome :=
  { ok := false, failMsg := some msg, spawns := spawns, stopCalled := true,
    uiProcess := (UIManager.stop graceful proc).1, warnings := w }

/-- Keyword markers of the crash diagnostics (lines 391 and 415). -/
def errorKeywords : List String :=
  ["ERROR:", "error", "Failed", "failed", "exited with code", "EADDRINUSE"]

/-- The list comprehension `[line for line in self.process_output if any(keyword in line ...)]`. -/
def errorLines (out : List String) : List String :=
  out.filter (fun line => errorKeywords.any (fun kw => containsSubstr line kw))

/-- Crash message of lines 385-394 (process exited inside the settle window). -/
def msgExitedBeforeGateway (out : List String) : String :=
  "❌ UI server process exited before gateway could start:\n"
    ++ (if joinLines (lastN 50 out) != "" then
          "\nRecent output (last 50 lines):\n" ++ joinLines (lastN 50 out) ++ "\n"
        else "")
    ++ (if errorLines out != [] then
          "\n🔍 Error messages found:\n" ++ joinLines (lastN 15 (errorLines out)) ++ "\n"
        else "")

/-- Crash message of line 404 (gateway port answered but the process died). -/
def msgGatewayButExited (out : List String) : String :=
  "❌ Gateway started but process exited immediately. Output:\n" ++ joinLines (lastN 30 out)

/-- Crash message of lines 408-418 (gateway never answered and the process died). -/
def msgCrashedDuringStartup (out : List String) : String :=
  "❌ UI server crashed during startup:\n"
    ++ (if joinLines (lastN 50 out) != "" then
          "\nRecent output (last 50 lines):\n" ++ joinLines (lastN 50 out) ++ "\n"
        else "")
    ++ (if errorLines out != [] then
          "\n🔍 Error messages found:\n" ++ joinLines (lastN 15 (errorLines out)) ++ "\n"
        else "")

/-- Failure message of line 420 (gateway never answered, process alive). -/
def msgGatewayTimeout : String :=
  "❌ Gateway did not start on port " ++ toString UIManager.ui_port ++ " within 30 seconds"

/-- Crash message of lines 481-487 (final health check). -/
def msgFinalCrashed (out : List String) : String :=
  "❌ UI server process has crashed:\n"
    ++ (if joinLines (lastN 30 out) != "" then
          "\nRecent output (last 30 lines):\n" ++ joinLines (lastN 30 out) ++ "\n"
        else "")

/-- Readiness tail of `start` (lines 422-490): the Next.js dev-server port,
the compilation-marker wait and the HTTP probe only ever add warnings; the
final health check at line 481 decides success. -/
def startNextjsPhase (env : Env) (spawns : List SpawnKind) (w : List String) : StartOutcome :=
  let w := w ++
    (if env.nextjsReady then
      (if !env.compiled then
        ["⚠️  Next.js may still be compiling - this is normal for first startup"]
      else [])
        ++ (if !env.httpOk then
              ["⚠️  Next.js not responding on port 3099: " ++ env.httpErrText]
            else [])
    else ["⚠️  Warning: Next.js dev server may not be ready yet"])
  if !env.aliveAtFinal then
    failOutcome env.stopGraceful (msgFinalCrashed env.recentOutput) spawns (some 0) w
  else
    { ok := true, failMsg := none, spawns := spawns, stopCalled := false,
      uiProcess := some 0, warnings := w }

/-- Steps 6-8 of `start` (lines 269-420): write `.env`, spawn the UI server
process, wait the settle window, then run the gateway (primary) readiness
phase. -/
def startAfterInstall (env : Env) (spawns : List SpawnKind) (w : List String) : StartOutcome :=
  let _envVars := configureEnv env.envFile
  let spawns := spawns ++ [SpawnKind.uiServer]
  if env.spawnRaises then
    failOutcome env.stopGraceful ("❌ Failed to start UI server: " ++ env.spawnErrText)
      spawns none w
  else if !env.aliveAtSettle then
    failOutcome env.stopGraceful (msgExitedBeforeGateway env.recentOutput) spawns (some 0) w
  else if env.gatewayReady then
    if !env.aliveAfterGatewayWait then
      failOutcome env.stopGraceful (msgGatewayButExited env.recentOutput) spawns (some 0) w
    else startNextjsPhase env spawns w
  else if !env.aliveAfterGatewayWait then
    failOutcome env.stopGraceful (msgCrashedDuringStartup env.recentOutput) spawns (some 0) w
  else
    failOutcome env.stopGraceful msgGatewayTimeout spawns (some 0) w

/-- Step 5 of `start`: run the install retry loop; a raised
`RuntimeError` aborts, otherwise (break or fall-through) control reaches
step 6. -/
def startInstallPhase (env : Env) (spawns : List SpawnKind) (w : List String) : StartOutcome :=
  let ir := installLoop env.install 0 2 ⟨false, false⟩
  let spawns := spawns ++ List.replicate ir.invocations SpawnKind.npmInstall
  match ir with
  | .error msg _ => failOutcome env.stopGraceful msg spawns none w
  | _ => startAfterInstall env spawns w

/-- Step 4 of `start` (lines 171-191): clone the UI repository when the
directory is absent. -/
def startClonePhase (env : Env) (spawns : List SpawnKind) (w : List String) : StartOutcome :=
  if !env.uiPathExists then
    let spawns := spawns ++ [SpawnKind.gitClone]
    match env.clone with
    | .timeout =>
      failOutcome env.stopGraceful "❌ Git clone timed out - check your internet connection"
        spawns none w
    | .failed errMsg =>
      failOutcome env.stopGraceful ("❌ Failed to clone repository: " ++ errMsg) spawns none w
    | .success => startInstallPhase env spawns w
  else startInstallPhase env spawns w

/-- The `start` method: steps 1-3 (tool preconditions, NAT-server advisory
probe, UI-port availability with the interactive Unix kill offer), then the
clone/install/run/readiness pipeline.  Every `RuntimeError` raised inside
the body is caught at lines 492-499, which print it, call `self.stop()` and
return `False`. -/
def UIManager.start (env : Env) : StartOutcome :=
  let spawns1 : List SpawnKind := [SpawnKind.versionCheck "git"]
  if !env.gitOk then failOutcome env.stopGraceful "❌ git is not installed" spawns1 none [] else
  let spawns2 := spawns1 ++ [SpawnKind.versionCheck "node"]
  if !env.nodeOk then failOutcome env.stopGraceful "❌ Node.js is not installed" spawns2 none [] else
  let spawns3 := spawns2 ++ [SpawnKind.versionCheck "npm"]
  if !env.npmOk then failOutcome env.stopGraceful "❌ npm is not installed" spawns3 none [] else
  let w1 : List String :=
    if env.natPortFree then
      ["⚠️  Warning: NAT server doesn't appear to be running on port "
        ++ toString UIManager.nat_port]
    else []
  if !env.uiPortFreeAtStart then
    let w2 := w1 ++ ["⚠️  Port " ++ toString UIManager.ui_port ++ " is already in use"]
    if env.userAgreesKill then
      let spawns4 := spawns3 ++ [SpawnKind.killPortCmd]
      if env.killAttemptRaises || !env.uiPortFreeAfterKill then
        failOutcome env.stopGraceful
          ("❌ Port " ++ toString UIManager.ui_port ++ " is in use and could not be freed")
          spawns4 none w2
      else startClonePhase env spawns4 w2
    else startClonePhase env spawns3 w2
  else startClonePhase env spawns3 w1

/-- Fully successful oracle: every precondition holds, the repository is
already cloned, every install attempt succeeds, every readiness probe
answers, and the process stays alive.  Witness environments below override
single fields of this run. -/
def baseEnv : Env :=
  { gitOk := true, nodeOk := true, npmOk := true, natPortFree := false,
    uiPortFreeAtStart := true, userAgreesKill := false, killAttemptRaises := false,
    uiPortFreeAfterKill := true, uiPathExists := true, clone := CloneOutcome.success,
    install := fun _ => InstallOutcome.success, envFile := none,
    spawnRaises := false, spawnErrText := "", recentOutput := [],
    aliveAtSettle := true, gatewayReady := true, aliveAfterGatewayWait := true,
    nextjsReady := true, compiled := true, httpOk := true, httpErrText := "",
    aliveAtFinal := true, stopGraceful := true }

/-! ## Theorems -/

/-- Each locked append keeps the buffer at or below 100 lines. -/
lemma length_appendBounded (buf : List String) (l : String) (h : buf.length ≤ 100) :
    (appendBounded buf l).length ≤ 100 := by
  simp only [appendBounded]
  split
  · simp only [List.length_tail, List.length_append, List.length_cons, List.length_nil]
    omega
  · rename_i hle
    simp only [List.length_append, List.length_cons, List.length_nil] at hle ⊢
    omega

/-- Folding the locked append over a line sequence keeps exactly the newest
lines: the result is the suffix of `buf ++ lines` that fits in 100 slots. -/
lemma foldl_appendBounded (lines : List String) : ∀ buf : List String, buf.length ≤ 100 →
    List.foldl appendBounded buf lines
      = (buf ++ lines).drop (buf.length + lines.length - 100) := by
  induction lines with
  | nil =>
    intro buf h
    simp only [List.foldl_nil, List.append_nil, List.length_nil, Nat.add_zero]
    rw [Nat.sub_eq_zero_of_le h, List.drop_zero]
  | cons l ls ih =>
    intro buf h
    simp only [List.foldl_cons]
    by_cases hfull : buf.length = 100
    · have h1 : appendBounded buf l = (buf ++ [l]).tail := by
        simp only [appendBounded]
        rw [if_pos]
        simp only [List.length_append, List.length_cons, List.length_nil]
        omega
      have hlen : ((buf ++ [l]).tail).length = 100 := by
        simp only [List.length_tail, List.length_append, List.length_cons, List.length_nil]
        omega
      rw [h1, ih _ (le_of_eq hlen), hlen]
      cases buf with
      | nil => simp at hfull
      | cons b bs =>
        simp only [List.cons_append, List.tail_cons]
        have e1 : 100 + ls.length - 100 = ls.length := by omega
        have e2 : (b :: bs).length + (l :: ls).length - 100 = ls.length + 1 := by
          simp only [List.length_cons] at hfull ⊢
          omega
        rw [e1, e2, List.drop_succ_cons, List.append_assoc, List.singleton_append]
    · have hlt : buf.length < 100 := lt_of_le_of_ne h hfull
      have h1 : appendBounded buf l = buf ++ [l] := by
        simp only [appendBounded]
        rw [if_neg]
        simp only [List.length_append, List.length_cons, List.length_nil]
        omega
      have hlen2 : (buf ++ [l]).length ≤ 100 := by
        simp only [List.length_append, List.length_cons, List.length_nil]
        omega
      rw [h1, ih _ hlen2]
      simp only [List.append_assoc, List.singleton_append, List.length_append,
        List.length_cons, List.length_nil]
      congr 1
      omega

/-- Folding the per-event capture step equals folding the raw bounded
append over the tagged lines. -/
lemma foldl_captureAppend (events : List (OutSource × String)) :
    List.foldl captureAppend [] events
      = List.foldl appendBounded [] (events.map taggedLine) := by
  rw [List.foldl_map]
  rfl

/-- C3: the captured-output buffer is a bounded FIFO with maximum size
M = 100: for any interleaving of the two capture tasks producing more than
100 lines, the buffer never exceeds 100 lines after any append, and after
all appends it holds exactly the most recent 100 tagged lines in arrival
order. -/
theorem claim_C3_bounded_fifo (events : List (OutSource × String))
    (h : 100 < events.length) :
    (∀ n : Nat, (List.foldl captureAppend [] (events.take n)).length ≤ 100)
    ∧ List.foldl captureAppend [] events
        = (events.map taggedLine).drop (events.length - 100) := by
  constructor
  · intro n
    rw [foldl_captureAppend, foldl_appendBounded _ [] (by simp)]
    simp only [List.nil_append, List.length_nil, List.length_drop, List.length_map,
      List.length_take]
    omega
  · rw [foldl_captureAppend, foldl_appendBounded _ [] (by simp)]
    simp only [List.nil_append, List.length_nil, List.length_map]
    congr 1
    omega

/-- Concrete event sequence of 101 stdout lines used to witness C3. -/
def c3Events : List (OutSource × String) :=
  (List.range 101).map (fun i => (OutSource.stdout, toString i))

/-- Witness for C3 at a concrete 101-line interleaving. -/
theorem claim_C3_witness :
    List.foldl captureAppend [] c3Events
      = (c3Events.map taggedLine).drop (c3Events.length - 100) :=
  (claim_C3_bounded_fifo c3Events (by simp [c3Events])).2

/-- C6: `stop` is idempotent: every call clears the tracked handle, a
second call in succession is a no-op performing no process actions, and a
call with no tracked handle is a no-op. -/
theorem claim_C6_stop_idempotent (g g' : Bool) (p : Option Nat) :
    (UIManager.stop g p).1 = none
    ∧ UIManager.stop g' (UIManager.stop g p).1 = (none, [])
    ∧ UIManager.stop g none = (none, []) := by
  cases p <;> cases g <;> simp [UIManager.stop]

/-- Updating one key leaves every other key's binding unchanged. -/
lemma dictGet_dictSet_self (d : List (String × String)) (k v : String) :
    dictGet (dictSet d k v) k = some v := by
  induction d with
  | nil => simp [dictSet, dictGet]
  | cons p d ih =>
    obtain ⟨k', v'⟩ := p
    by_cases hk : k' == k
    · simp [dictSet, dictGet, hk]
    · simp [dictSet, dictGet, hk, ih]

/-- Lookup of a different key is unaffected by an update. -/
lemma dictGet_dictSet_ne (d : List (String × String)) (k k₀ v : String) (h : k ≠ k₀) :
    dictGet (dictSet d k v) k₀ = dictGet d k₀ := by
  induction d with
  | nil =>
    simp only [dictSet, dictGet]
    rw [if_neg]
    simp [h]
  | cons p d ih =>
    obtain ⟨k', v'⟩ := p
    by_cases hk : k' == k
    · have hk' : k' = k := by exact eq_of_beq hk
      subst hk'
      simp only [dictSet, dictGet, beq_self_eq_true, if_pos]
      rw [if_neg, if_neg] <;> simp [h]
    · simp only [dictSet, dictGet, hk, if_neg, Bool.false_eq_true, not_false_iff]
      by_cases hk0 : k' == k₀
      · simp [hk0]
      · simp [hk0, ih]

/-- C8: the `.env` configuration step always sets `NAT_BACKEND_URL` to the
backend URL, preserves the parsed value of every other existing key, and
sets `PORT` only when the existing file had none (an existing `PORT` value
is preserved). -/
theorem claim_C8_env_config (lines : List String) :
    dictGet (configureEnv (some lines)) "NAT_BACKEND_URL" = some natBackendUrl
    ∧ (∀ k v : String, k ≠ "NAT_BACKEND_URL" → k ≠ "PORT" →
        dictGet (parseEnvLines lines) k = some v →
        dictGet (configureEnv (some lines)) k = some v)
    ∧ (∀ p : String, dictGet (parseEnvLines lines) "PORT" = some p →
        dictGet (configureEnv (some lines)) "PORT" = some p)
    ∧ (dictGet (parseEnvLines lines) "PORT" = none →
        dictGet (configureEnv (some lines)) "PORT" = some (toString UIManager.ui_port)) := by
  have hports :
      dictGet (dictSet (parseEnvLines lines) "NAT_BACKEND_URL" natBackendUrl) "PORT"
        = dictGet (parseEnvLines lines) "PORT" :=
    dictGet_dictSet_ne _ _ _ _ (by decide)
  refine ⟨?_, ?_, ?_, ?_⟩
  · simp only [configureEnv]
    split
    · rw [dictGet_dictSet_ne _ _ _ _ (by decide), dictGet_dictSet_self]
    · rw [dictGet_dictSet_self]
  · intro k v hk1 hk2 hv
    simp only [configureEnv]
    split
    · rw [dictGet_dictSet_ne _ _ _ _ (fun e => hk2 e.symm),
        dictGet_dictSet_ne _ _ _ _ (fun e => hk1 e.symm), hv]
    · rw [dictGet_dictSet_ne _ _ _ _ (fun e => hk1 e.symm), hv]
  · intro p hp
    simp only [configureEnv]
    rw [if_neg, hports, hp]
    rw [hports, hp]
    simp
  · intro hp
    simp only [configureEnv]
    rw [if_pos, dictGet_dictSet_self]
    rw [hports, hp]
    rfl

/-- Witness for C8 on a concrete existing `.env` file. -/
theorem claim_C8_witness :
    dictGet (configureEnv (some ["FOO=bar", "# note", "PORT=4000"])) "NAT_BACKEND_URL"
        = some natBackendUrl
    ∧ dictGet (configureEnv (some ["FOO=bar", "# note", "PORT=4000"])) "FOO" = some "bar"
    ∧ dictGet (configureEnv (some ["FOO=bar", "# note", "PORT=4000"])) "PORT" = some "4000" := by
  refine ⟨(claim_C8_env_config _).1, ?_, ?_⟩
  · exact (claim_C8_env_config _).2.1 "FOO" "bar" (by decide) (by decide) (by decide)
  · exact (claim_C8_env_config _).2.2.1 "4000" (by decide)

/-- Folding the `.env`-reading step over lines none of whose well-formed
members carry the key `k` leaves the binding of `k` unchanged. -/
lemma dictGet_foldl_parseStep_ne (k v : String) :
    ∀ (post : List String) (d : List (String × String)),
      (∀ l ∈ post, keepLine l = true → stripStr (splitOnceEq (stripStr l)).1 ≠ k) →
      dictGet d k = some v →
      dictGet (List.foldl parseStep d post) k = some v := by
  intro post
  induction post with
  | nil =>
    intro d _ hd
    simpa using hd
  | cons l ls ih =>
    intro d hpost hd
    rw [List.foldl_cons]
    apply ih
    · intro x hx hkx
      exact hpost x (List.mem_cons_of_mem _ hx) hkx
    · by_cases hl : keepLine l = true
      · have hk := hpost l (List.mem_cons_self _ _) hl
        simp only [parseStep, hl, if_true]
        rw [dictGet_dictSet_ne _ _ _ _ hk]
        exact hd
      · simp only [parseStep]
        rw [if_neg hl]
        exact hd

/-- C10: the `.env` rewrite silently drops every blank, comment or
separator-free line (anywhere in the file), and for a duplicated key only
the last well-formed occurrence's value is kept: any file decomposes as
`pre ++ line :: post` around that last occurrence, with no well-formed
line of `post` carrying the same key. -/
theorem claim_C10_env_line_filter :
    (∀ (pre post : List String) (bad : String), keepLine bad = false →
        parseEnvLines (pre ++ bad :: post) = parseEnvLines (pre ++ post))
    ∧ (∀ (pre post : List String) (line k v : String), keepLine line = true →
        stripStr (splitOnceEq (stripStr line)).1 = k →
        stripStr (splitOnceEq (stripStr line)).2 = v →
        (∀ l ∈ post, keepLine l = true → stripStr (splitOnceEq (stripStr l)).1 ≠ k) →
        dictGet (parseEnvLines (pre ++ line :: post)) k = some v) := by
  constructor
  · intro pre post bad h
    unfold parseEnvLines
    rw [List.foldl_append, List.foldl_append, List.foldl_cons]
    congr 1
    simp [parseStep, h]
  · intro pre post line k v h hk hv hpost
    unfold parseEnvLines
    rw [List.foldl_append, List.foldl_cons]
    apply dictGet_foldl_parseStep_ne k v post _ hpost
    simp [parseStep, h, hk, hv, dictGet_dictSet_self]

/-- Witness for C10: a comment line is dropped, and the later duplicate of
key `K` wins even with a further line for another key after it. -/
theorem claim_C10_witness :
    parseEnvLines ["A=1", "# c", "B=2"] = parseEnvLines ["A=1", "B=2"]
    ∧ dictGet (parseEnvLines ["K=old", "K=new", "J=1"]) "K" = some "new" := by
  constructor
  · exact claim_C10_env_line_filter.1 ["A=1"] ["B=2"] "# c" (by decide)
  · exact claim_C10_env_line_filter.2 ["K=old"] ["J=1"] "K=new" "K" "new"
      (by decide) (by decide) (by decide) (by decide)

/-! ### Substring facts used for the "embeds the captured output" claims -/

/-- Appending strings concatenates their character data. -/
lemma data_append (a b : String) : (a ++ b).data = a.data ++ b.data := rfl

/-- A list is a `isPrefixOf` any of its extensions. -/
lemma isPrefixOf_append_self : ∀ (l t : List Char), l.isPrefixOf (l ++ t) = true
  | [], _ => by simp [List.isPrefixOf]
  | c :: cs, t => by simp [List.isPrefixOf, isPrefixOf_append_self cs t]

/-- A list is a prefix of itself. -/
lemma isPrefixOf_self : ∀ l : List Char, l.isPrefixOf l = true
  | [] => by simp [List.isPrefixOf]
  | c :: cs => by simp [List.isPrefixOf, isPrefixOf_self cs]

/-- The pattern occurs at the head of `pat ++ t`. -/
lemma substrAux_head (pat t : List Char) : substrAux pat (pat ++ t) = true := by
  cases pat with
  | nil =>
    cases t with
    | nil => rfl
    | cons c cs => simp [substrAux]
  | cons p ps =>
    have := isPrefixOf_append_self (p :: ps) t
    simp only [List.cons_append] at this ⊢
    simp [substrAux, this]

/-- Occurrence is preserved by consing more characters on the left. -/
lemma substrAux_append_left : ∀ (pat x l : List Char),
    substrAux pat l = true → substrAux pat (x ++ l) = true
  | _, [], _, h => h
  | pat, c :: cs, l, h => by
    simp [substrAux, substrAux_append_left pat cs l h]

/-- A string contains itself. -/
lemma containsSubstr_self (s : String) : containsSubstr s s = true := by
  simp only [containsSubstr]
  cases hd : s.data with
  | nil => rfl
  | cons c cs => simp [substrAux, isPrefixOf_self]

/-- Containment is preserved by prepending. -/
lemma containsSubstr_append_left (a t s : String) (h : containsSubstr t s = true) :
    containsSubstr (a ++ t) s = true := by
  simp only [containsSubstr] at h ⊢
  exact substrAux_append_left s.data a.data t.data h

/-- A string occurs at the head of `s ++ b`. -/
lemma containsSubstr_prefix (s b : String) : containsSubstr (s ++ b) s = true := by
  simp only [containsSubstr, data_append]
  exact substrAux_head s.data b.data

/-- Appending the empty string, on either side, is the identity. -/
lemma str_append_empty (s : String) : s ++ "" = s := by
  apply String.ext
  show s.data ++ [] = s.data
  exact List.append_nil _

/-- Prepending the empty string is the identity. -/
lemma str_empty_append (s : String) : "" ++ s = s := by
  apply String.ext
  show [] ++ s.data = s.data
  exact List.nil_append _

/-! ### The install-with-retry engine (claims C1, C2) -/

/-- Unfolding equation for one loop iteration of the install engine. -/
lemma installLoop_succ (oc : Nat → InstallOutcome) (inv r : Nat) (st : InstallState) :
    installLoop oc inv (r + 1) st =
      match oc inv with
      | .success => .installed (inv + 1) st
      | .timeout _ _ =>
        if r > 0 then installLoop oc (inv + 1) r st
        else .error "❌ npm install timed out after retries" (inv + 1)
      | .failed stderr stdout rc =>
        if !st.useNpmInstall && isLockfileError (stderr ++ stdout) then
          installLoop oc (inv + 1) r { st with useNpmInstall := true }
        else if !st.useLegacyPeerDeps && isPeerDepError (stderr ++ stdout) then
          installLoop oc (inv + 1) r { st with useLegacyPeerDeps := true }
        else if r > 0 then installLoop oc (inv + 1) r st
        else .error (genericErrorMsg stderr stdout rc) (inv + 1) := rfl

/-- Every loop iteration — reclassifying or not — runs at most one install
subprocess per remaining `attempt` value. -/
lemma installLoop_invocations_le (oc : Nat → InstallOutcome) :
    ∀ (r inv : Nat) (st : InstallState),
      (installLoop oc inv r st).invocations ≤ inv + r := by
  intro r
  induction r with
  | zero =>
    intro inv st
    have h : installLoop oc inv 0 st = .fellThrough inv st := rfl
    rw [h]
    simp [InstallResult.invocations]
  | succ r ih =>
    intro inv st
    rw [installLoop_succ]
    cases hoc : oc inv with
    | success =>
      dsimp only [InstallResult.invocations]
      omega
    | timeout a b =>
      dsimp only
      by_cases hr : r > 0
      · rw [if_pos hr]
        exact le_trans (ih (inv + 1) st) (by omega)
      · rw [if_neg hr]
        dsimp only [InstallResult.invocations]
        omega
    | failed se so rc =>
      dsimp only
      split
      · exact le_trans (ih _ _) (by omega)
      · split
        · exact le_trans (ih _ _) (by omega)
        · split
          · exact le_trans (ih _ _) (by omega)
          · dsimp only [InstallResult.invocations]
            omega

/-- C1 counterexample: with budget `max_retries = 2`, a run whose first
attempt fails with a lockfile marker, whose second attempt times out, and
whose third invocation would succeed, aborts with the timeout error — the
lockfile reclassification did consume a retry attempt, so the success at
invocation 2 is never reached (the claim would require at most 2 attempts
of budget for the timeout after a free reclassification). -/
theorem claim_C1_counterexample :
    installLoop
        (fun n => if n = 0 then
            InstallOutcome.failed "npm error: your package-lock.json is out of sync" "" 1
          else if n = 1 then InstallOutcome.timeout "" ""
          else InstallOutcome.success)
        0 2 ⟨false, false⟩
      = InstallResult.error "❌ npm install timed out after retries" 2
    ∧ (fun n => if n = 0 then
          InstallOutcome.failed "npm error: your package-lock.json is out of sync" "" 1
        else if n = 1 then InstallOutcome.timeout "" ""
        else InstallOutcome.success) 2 = InstallOutcome.success := by
  exact ⟨by decide, by decide⟩

/-- C1 (amended): on a failure output matching a lockfile-mismatch marker
with its flag unset, the engine flips the sticky flag and immediately
re-runs with the substituted `npm install` variant; on a failure output
matching a peer-dependency-conflict marker with its flag unset (and the
lockfile branch not taken), it flips its sticky flag and immediately
re-runs with the `--legacy-peer-deps` compatibility flag appended — but in
both branches the `continue` advances the `for`-loop attempt counter, so
the reclassified failure consumes one of the N = 2 attempts like any other
failure: the total number of install invocations never exceeds the attempt
budget, and either reclassification on the final attempt ends the loop
with neither a re-run nor an error. -/
theorem claim_C1_reclassification (oc : Nat → InstallOutcome) (inv r : Nat)
    (st : InstallState) (stderr stdout : String) (rc : Int)
    (h1 : oc inv = InstallOutcome.failed stderr stdout rc) :
    (st.useNpmInstall = false → isLockfileError (stderr ++ stdout) = true →
      installLoop oc inv (r + 1) st
          = installLoop oc (inv + 1) r { st with useNpmInstall := true }
      ∧ installCmdList "npm" { st with useNpmInstall := true }
          = ["npm", "install"]
              ++ (if st.useLegacyPeerDeps then ["--legacy-peer-deps"] else [])
      ∧ installLoop oc inv (0 + 1) st
          = InstallResult.fellThrough (inv + 1) { st with useNpmInstall := true })
    ∧ ((!st.useNpmInstall && isLockfileError (stderr ++ stdout)) = false →
       st.useLegacyPeerDeps = false → isPeerDepError (stderr ++ stdout) = true →
      installLoop oc inv (r + 1) st
          = installLoop oc (inv + 1) r { st with useLegacyPeerDeps := true }
      ∧ installCmdList "npm" { st with useLegacyPeerDeps := true }
          = ["npm", if st.useNpmInstall then "install" else "ci", "--legacy-peer-deps"]
      ∧ installLoop oc inv (0 + 1) st
          = InstallResult.fellThrough (inv + 1) { st with useLegacyPeerDeps := true })
    ∧ (installLoop oc inv (r + 1) st).invocations ≤ inv + (r + 1) := by
  refine ⟨?_, ?_, installLoop_invocations_le oc (r + 1) inv st⟩
  · intro h2 h3
    have h0 : installLoop oc (inv + 1) 0 { st with useNpmInstall := true } =
        InstallResult.fellThrough (inv + 1) { st with useNpmInstall := true } := rfl
    refine ⟨?_, ?_, ?_⟩
    · rw [installLoop_succ, h1]
      simp [h2, h3]
    · simp [installCmdList]
    · rw [installLoop_succ, h1]
      simp [h2, h3, h0]
  · intro hlk h2 h3
    have h0 : installLoop oc (inv + 1) 0 { st with useLegacyPeerDeps := true } =
        InstallResult.fellThrough (inv + 1) { st with useLegacyPeerDeps := true } := rfl
    refine ⟨?_, ?_, ?_⟩
    · rw [installLoop_succ, h1]
      simp [hlk, h2, h3]
    · simp [installCmdList]
    · rw [installLoop_succ, h1]
      simp [hlk, h2, h3, h0]

/-- Witness for the amended C1: a lockfile-classified first failure flips
the install-variant flag, and a peer-dependency-classified first failure
flips the compatibility flag; in both runs the engine re-runs immediately
with one fewer attempt remaining. -/
theorem claim_C1_witness :
    (installLoop (fun _ => InstallOutcome.failed "package-lock.json mismatch" "" 1)
        0 2 ⟨false, false⟩
      = installLoop (fun _ => InstallOutcome.failed "package-lock.json mismatch" "" 1)
          1 1 ⟨true, false⟩)
    ∧ (installLoop (fun _ => InstallOutcome.failed "npm ERR! ERESOLVE could not resolve" "" 1)
        0 2 ⟨false, false⟩
      = installLoop (fun _ => InstallOutcome.failed "npm ERR! ERESOLVE could not resolve" "" 1)
          1 1 ⟨false, true⟩) := by
  constructor
  · exact ((claim_C1_reclassification
      (fun _ => InstallOutcome.failed "package-lock.json mismatch" "" 1)
      0 1 ⟨false, false⟩ "package-lock.json mismatch" "" 1 rfl).1
        rfl (by decide)).1
  · exact ((claim_C1_reclassification
      (fun _ => InstallOutcome.failed "npm ERR! ERESOLVE could not resolve" "" 1)
      0 1 ⟨false, false⟩ "npm ERR! ERESOLVE could not resolve" "" 1 rfl).2.1
        (by decide) rfl (by decide)).1

/-- C2 (amended): when the retry budget is exhausted by two unrecognized
`CalledProcessError` failures, `start` aborts returning `False` with the
failure message `genericErrorMsg`, which embeds the final attempt's
captured stderr and stdout, or — when both captured streams are empty —
the process exit code together with the remediation guidance.  (A run
exhausted by timeouts instead aborts with the fixed timeout message; see
the counterexample.) -/
theorem claim_C2_generic_exhaustion (env : Env) (s0 o0 : String) (rc0 : Int)
    (s1 o1 : String) (rc1 : Int)
    (hgit : env.gitOk = true) (hnode : env.nodeOk = true) (hnpm : env.npmOk = true)
    (hport : env.uiPortFreeAtStart = true) (hpath : env.uiPathExists = true)
    (h0 : env.install 0 = InstallOutcome.failed s0 o0 rc0)
    (h0l : isLockfileError (s0 ++ o0) = false) (h0p : isPeerDepError (s0 ++ o0) = false)
    (h1 : env.install 1 = InstallOutcome.failed s1 o1 rc1)
    (h1l : isLockfileError (s1 ++ o1) = false) (h1p : isPeerDepError (s1 ++ o1) = false) :
    (UIManager.start env).ok = false
    ∧ (UIManager.start env).failMsg = some (genericErrorMsg s1 o1 rc1)
    ∧ (UIManager.start env).stopCalled = true
    ∧ (s1 ≠ "" → containsSubstr (genericErrorMsg s1 o1 rc1) s1 = true)
    ∧ (o1 ≠ "" → containsSubstr (genericErrorMsg s1 o1 rc1) o1 = true)
    ∧ (s1 = "" → o1 = "" →
        containsSubstr (genericErrorMsg s1 o1 rc1)
          ("\n(Process exited with code " ++ toString rc1 ++ ")\n"
            ++ "Try running 'npm install' manually in the NeMo-Agent-Toolkit-UI directory to see the full error.\n")
          = true) := by
  have e1 := installLoop_succ env.install 0 1 ⟨false, false⟩
  rw [h0] at e1
  simp [h0l, h0p] at e1
  have e2 := installLoop_succ env.install 1 0 ⟨false, false⟩
  rw [h1] at e2
  simp [h1l, h1p] at e2
  have hloop := e1.trans e2
  refine ⟨?_, ?_, ?_, ?_, ?_, ?_⟩
  · simp [UIManager.start, startClonePhase, startInstallPhase, hgit, hnode, hnpm,
      hport, hpath, hloop, failOutcome, UIManager.stop, InstallResult.invocations]
  · simp [UIManager.start, startClonePhase, startInstallPhase, hgit, hnode, hnpm,
      hport, hpath, hloop, failOutcome, UIManager.stop, InstallResult.invocations]
  · simp [UIManager.start, startClonePhase, startInstallPhase, hgit, hnode, hnpm,
      hport, hpath, hloop, failOutcome, UIManager.stop, InstallResult.invocations]
  · intro hs
    have hbne : (s1 != "") = true := by simpa using hs
    unfold genericErrorMsg
    rw [if_pos hbne]
    simp only [String.append_assoc]
    apply containsSubstr_append_left
    apply containsSubstr_append_left
    exact containsSubstr_prefix _ _
  · intro ho
    have hbne : (o1 != "") = true := by simpa using ho
    unfold genericErrorMsg
    rw [if_pos hbne]
    simp only [String.append_assoc]
    apply containsSubstr_append_left
    apply containsSubstr_append_left
    apply containsSubstr_append_left
    exact containsSubstr_prefix _ _
  · intro hs ho
    subst hs; subst ho
    unfold genericErrorMsg
    simp only [String.append_assoc, str_empty_append, str_append_empty]
    rw [if_neg (by decide), if_neg (by decide), if_pos (by decide)]
    simp only [String.append_assoc, str_empty_append, str_append_empty]
    apply containsSubstr_append_left
    exact containsSubstr_self _

/-- C2 counterexample: a run whose two install attempts both time out (with
captured partial output) exhausts the retry budget, yet `start` aborts with
the fixed timeout message, which embeds neither the captured streams nor
the process exit code — contradicting the claim for timeout exhaustion. -/
theorem claim_C2_counterexample :
    (UIManager.start { baseEnv with
        install := fun _ => InstallOutcome.timeout "partial-out" "partial-err" }).ok = false
    ∧ (UIManager.start { baseEnv with
        install := fun _ => InstallOutcome.timeout "partial-out" "partial-err" }).failMsg
      = some "❌ npm install timed out after retries"
    ∧ containsSubstr "❌ npm install timed out after retries" "partial-out" = false
    ∧ containsSubstr "❌ npm install timed out after retries" "partial-err" = false
    ∧ containsSubstr "❌ npm install timed out after retries" "exited with code" = false := by
  exact ⟨by decide, by decide, by decide, by decide, by decide⟩

/-- Witness for the amended C2 at a concrete run with two unrecognized
install failures. -/
theorem claim_C2_witness :
    (UIManager.start { baseEnv with
        install := fun n => if n = 0 then InstallOutcome.failed "errA" "outA" 1
          else InstallOutcome.failed "boomB" "outB" 7 }).ok = false
    ∧ (UIManager.start { baseEnv with
        install := fun n => if n = 0 then InstallOutcome.failed "errA" "outA" 1
          else InstallOutcome.failed "boomB" "outB" 7 }).failMsg
      = some (genericErrorMsg "boomB" "outB" 7)
    ∧ containsSubstr (genericErrorMsg "boomB" "outB" 7) "boomB" = true := by
  have h := claim_C2_generic_exhaustion
    { baseEnv with
        install := fun n => if n = 0 then InstallOutcome.failed "errA" "outA" 1
          else InstallOutcome.failed "boomB" "outB" 7 }
    "errA" "outA" 1 "boomB" "outB" 7
    rfl rfl rfl rfl rfl rfl (by decide) (by decide) rfl (by decide) (by decide)
  exact ⟨h.1, h.2.1, h.2.2.2.1 (by decide)⟩

/-! ### Primary readiness failure and precondition short-circuit (claims C4, C5) -/

/-- C4: when the primary gateway port never responds within its poll
timeout (regardless of whether the process also died meanwhile), `start`
returns failure, `stop` has been invoked before returning, and the tracked
process handle is cleared. -/
theorem claim_C4_primary_timeout (env : Env)
    (hgit : env.gitOk = true) (hnode : env.nodeOk = true) (hnpm : env.npmOk = true)
    (hport : env.uiPortFreeAtStart = true) (hpath : env.uiPathExists = true)
    (hinst : installLoop env.install 0 2 ⟨false, false⟩
      = InstallResult.installed 1 ⟨false, false⟩)
    (hspawn : env.spawnRaises = false) (hsettle : env.aliveAtSettle = true)
    (hgw : env.gatewayReady = false) :
    (UIManager.start env).ok = false
    ∧ (UIManager.start env).stopCalled = true
    ∧ (UIManager.start env).uiProcess = none := by
  cases hpoll : env.aliveAfterGatewayWait <;>
    simp [UIManager.start, startClonePhase, startInstallPhase, startAfterInstall,
      hgit, hnode, hnpm, hport, hpath, hinst, hspawn, hsettle, hgw, hpoll,
      failOutcome, UIManager.stop, InstallResult.invocations]

/-- Witness for C4: the fully healthy run except that the gateway port
never answers. -/
theorem claim_C4_witness :
    (UIManager.start { baseEnv with gatewayReady := false }).ok = false
    ∧ (UIManager.start { baseEnv with gatewayReady := false }).stopCalled = true
    ∧ (UIManager.start { baseEnv with gatewayReady := false }).uiProcess = none :=
  claim_C4_primary_timeout { baseEnv with gatewayReady := false }
    rfl rfl rfl rfl rfl (by decide) rfl rfl rfl

/-- C5: when any required tool (git, node, npm) is missing or fails its
version-query check, `start` returns failure and the subprocess trace
contains only tool version-query spawns — no clone, install, kill or UI
server subprocess was ever spawned. -/
theorem claim_C5_short_circuit (env : Env)
    (h : env.gitOk = false ∨ env.nodeOk = false ∨ env.npmOk = false) :
    (UIManager.start env).ok = false
    ∧ ∀ sp ∈ (UIManager.start env).spawns, ∃ c, sp = SpawnKind.versionCheck c := by
  constructor
  · cases hg : env.gitOk with
    | false => simp [UIManager.start, hg, failOutcome]
    | true =>
      cases hn : env.nodeOk with
      | false => simp [UIManager.start, hg, hn, failOutcome]
      | true =>
        cases hm : env.npmOk with
        | false => simp [UIManager.start, hg, hn, hm, failOutcome]
        | true => rcases h with h | h | h <;> simp_all
  · intro sp hsp
    cases hg : env.gitOk with
    | false =>
      simp [UIManager.start, hg, failOutcome] at hsp
      exact ⟨"git", hsp⟩
    | true =>
      cases hn : env.nodeOk with
      | false =>
        simp [UIManager.start, hg, hn, failOutcome] at hsp
        rcases hsp with hsp | hsp
        · exact ⟨"git", hsp⟩
        · exact ⟨"node", hsp⟩
      | true =>
        cases hm : env.npmOk with
        | false =>
          simp [UIManager.start, hg, hn, hm, failOutcome] at hsp
          rcases hsp with hsp | hsp | hsp
          · exact ⟨"git", hsp⟩
          · exact ⟨"node", hsp⟩
          · exact ⟨"npm", hsp⟩
        | true => rcases h with h | h | h <;> simp_all

/-- Witness for C5: node missing. -/
theorem claim_C5_witness :
    (UIManager.start { baseEnv with nodeOk := false }).ok = false
    ∧ ∀ sp ∈ (UIManager.start { baseEnv with nodeOk := false }).spawns,
        ∃ c, sp = SpawnKind.versionCheck c :=
  claim_C5_short_circuit { baseEnv with nodeOk := false } (Or.inr (Or.inl rfl))

/-! ### Secondary readiness warnings and totality of start (claims C7, C9) -/

/-- C7: when the primary gateway phase succeeds and the child process stays
alive, a secondary readiness failure — the Next.js dev-server port never
responding, the compilation marker never appearing, or the HTTP probe
failing — only records a warning and `start` still returns success. -/
theorem claim_C7_secondary_warning (env : Env)
    (hgit : env.gitOk = true) (hnode : env.nodeOk = true) (hnpm : env.npmOk = true)
    (hport : env.uiPortFreeAtStart = true) (hpath : env.uiPathExists = true)
    (hinst : installLoop env.install 0 2 ⟨false, false⟩
      = InstallResult.installed 1 ⟨false, false⟩)
    (hspawn : env.spawnRaises = false) (hsettle : env.aliveAtSettle = true)
    (hgw : env.gatewayReady = true) (hpoll : env.aliveAfterGatewayWait = true)
    (hfin : env.aliveAtFinal = true)
    (hsec : env.nextjsReady = false ∨ env.compiled = false ∨ env.httpOk = false) :
    (UIManager.start env).ok = true
    ∧ (env.nextjsReady = false →
        "⚠️  Warning: Next.js dev server may not be ready yet"
          ∈ (UIManager.start env).warnings)
    ∧ (env.nextjsReady = true → env.compiled = false →
        "⚠️  Next.js may still be compiling - this is normal for first startup"
          ∈ (UIManager.start env).warnings)
    ∧ (env.nextjsReady = true → env.httpOk = false →
        ("⚠️  Next.js not responding on port 3099: " ++ env.httpErrText)
          ∈ (UIManager.start env).warnings)
    ∧ (UIManager.start env).warnings ≠ [] := by
  cases hnex : env.nextjsReady <;> cases hcomp : env.compiled <;> cases hhttp : env.httpOk <;>
    simp_all [UIManager.start, startClonePhase, startInstallPhase, startAfterInstall,
      startNextjsPhase, failOutcome, UIManager.stop, InstallResult.invocations]

/-- Witness for C7: healthy primary phase, Next.js port never answers. -/
theorem claim_C7_witness :
    (UIManager.start { baseEnv with nextjsReady := false }).ok = true
    ∧ "⚠️  Warning: Next.js dev server may not be ready yet"
        ∈ (UIManager.start { baseEnv with nextjsReady := false }).warnings := by
  have h := claim_C7_secondary_warning { baseEnv with nextjsReady := false }
    rfl rfl rfl rfl rfl (by decide) rfl rfl rfl rfl rfl (Or.inl rfl)
  exact ⟨h.1, h.2.1 rfl⟩

/-- C9: `start` is total at its public interface (in the embedding every
raised error is a value of the oracle-driven run, caught by the handlers of
lines 492-499): whenever it returns `False` it has invoked `stop()` and the
tracked handle is cleared, and it returns `True` only when the final
process-health check (line 481) found the process alive, in which case
`stop` was never invoked. -/
theorem claim_C9_total (env : Env) :
    ((UIManager.start env).ok = false →
      (UIManager.start env).stopCalled = true ∧ (UIManager.start env).uiProcess = none)
    ∧ ((UIManager.start env).ok = true →
      env.aliveAtFinal = true ∧ (UIManager.start env).stopCalled = false) := by
  have hnext : ∀ (sp : List SpawnKind) (w : List String),
      ((startNextjsPhase env sp w).ok = false →
        (startNextjsPhase env sp w).stopCalled = true
          ∧ (startNextjsPhase env sp w).uiProcess = none)
      ∧ ((startNextjsPhase env sp w).ok = true →
        env.aliveAtFinal = true ∧ (startNextjsPhase env sp w).stopCalled = false) := by
    intro sp w
    cases hf : env.aliveAtFinal <;>
      simp [startNextjsPhase, hf, failOutcome, UIManager.stop]
  have hafter : ∀ (sp : List SpawnKind) (w : List String),
      ((startAfterInstall env sp w).ok = false →
        (startAfterInstall env sp w).stopCalled = true
          ∧ (startAfterInstall env sp w).uiProcess = none)
      ∧ ((startAfterInstall env sp w).ok = true →
        env.aliveAtFinal = true ∧ (startAfterInstall env sp w).stopCalled = false) := by
    intro sp w
    cases h1 : env.spawnRaises with
    | true => simp [startAfterInstall, h1, failOutcome, UIManager.stop]
    | false =>
      cases h2 : env.aliveAtSettle with
      | false => simp [startAfterInstall, h1, h2, failOutcome, UIManager.stop]
      | true =>
        cases h3 : env.gatewayReady with
        | false =>
          cases h4 : env.aliveAfterGatewayWait <;>
            simp [startAfterInstall, h1, h2, h3, h4, failOutcome, UIManager.stop]
        | true =>
          cases h4 : env.aliveAfterGatewayWait with
          | false => simp [startAfterInstall, h1, h2, h3, h4, failOutcome, UIManager.stop]
          | true =>
            simpa [startAfterInstall, h1, h2, h3, h4]
              using hnext (sp ++ [SpawnKind.uiServer]) w
  have hinstph : ∀ (sp : List SpawnKind) (w : List String),
      ((startInstallPhase env sp w).ok = false →
        (startInstallPhase env sp w).stopCalled = true
          ∧ (startInstallPhase env sp w).uiProcess = none)
      ∧ ((startInstallPhase env sp w).ok = true →
        env.aliveAtFinal = true ∧ (startInstallPhase env sp w).stopCalled = false) := by
    intro sp w
    cases hir : installLoop env.install 0 2 ⟨false, false⟩ with
    | installed n st =>
      simpa [startInstallPhase, hir, InstallResult.invocations]
        using hafter (sp ++ List.replicate n SpawnKind.npmInstall) w
    | fellThrough n st =>
      simpa [startInstallPhase, hir, InstallResult.invocations]
        using hafter (sp ++ List.replicate n SpawnKind.npmInstall) w
    | error msg n =>
      simp [startInstallPhase, hir, InstallResult.invocations, failOutcome, UIManager.stop]
  have hclone : ∀ (sp : List SpawnKind) (w : List String),
      ((startClonePhase env sp w).ok = false →
        (startClonePhase env sp w).stopCalled = true
          ∧ (startClonePhase env sp w).uiProcess = none)
      ∧ ((startClonePhase env sp w).ok = true →
        env.aliveAtFinal = true ∧ (startClonePhase env sp w).stopCalled = false) := by
    intro sp w
    cases hp : env.uiPathExists with
    | true => simpa [startClonePhase, hp] using hinstph sp w
    | false =>
      cases hc : env.clone with
      | success =>
        simpa [startClonePhase, hp, hc] using hinstph (sp ++ [SpawnKind.gitClone]) w
      | timeout => simp [startClonePhase, hp, hc, failOutcome, UIManager.stop]
      | failed e => simp [startClonePhase, hp, hc, failOutcome, UIManager.stop]
  cases hg : env.gitOk with
  | false => simp [UIManager.start, hg, failOutcome, UIManager.stop]
  | true =>
    cases hn : env.nodeOk with
    | false => simp [UIManager.start, hg, hn, failOutcome, UIManager.stop]
    | true =>
      cases hm : env.npmOk with
      | false => simp [UIManager.start, hg, hn, hm, failOutcome, UIManager.stop]
      | true =>
        cases hpf : env.uiPortFreeAtStart with
        | true => simpa [UIManager.start, hg, hn, hm, hpf] using hclone _ _
        | false =>
          cases hu : env.userAgreesKill with
          | false => simpa [UIManager.start, hg, hn, hm, hpf, hu] using hclone _ _
          | true =>
            cases hk : (env.killAttemptRaises || !env.uiPortFreeAfterKill) with
            | true =>
              simp [UIManager.start, hg, hn, hm, hpf, hu, hk, failOutcome, UIManager.stop]
            | false =>
              simpa [UIManager.start, hg, hn, hm, hpf, hu, hk] using hclone _ _

/-- Witness for C9 on a concrete failing run (gateway never answers). -/
theorem claim_C9_witness :
    (UIManager.start { baseEnv with gatewayReady := false }).stopCalled = true
    ∧ (UIManager.start { baseEnv with gatewayReady := false }).uiProcess = none :=
  (claim_C9_total { baseEnv with gatewayReady := false }).1 (by decide)
